import Mathlib

/-!
Verification of the factor-tilt analyzer's core numerical pipeline.

The development shallowly embeds the pipeline's core operations:

* `analysis/minimum_variance_portfolio.py`: `calculate_mvp_weights` and
  `calculate_mvp_portfolio`, over exact rationals (`ℚ`).  A pandas
  `DataFrame` of returns becomes a `DataFrame m n` record (date index,
  column labels, data matrix); a pandas `Series` becomes `PSeries`.
  Python `ValueError` / `TypeError` raising is modelled by returning
  `Except PyErr`.
* `analysis/portfolio_statistics.py`: `calculate_portfolio_statistics`
  and `compare_portfolio_with_market_benchmark`, over the reals, with an
  explicit `FloatVal` model for the IEEE NaN values that pandas produces
  (`Series.std()` of a single observation, the `np.nan` Sharpe sentinel).
* `analysis/portfolio_analyzer.py`: `factor_analysis_regression` up to the
  point where the OLS model is fitted, and `interpret_exposure`.
-/

open Finset Matrix

/-- Python exception kinds raised by the analysis modules, with their
message strings.  `raise ValueError(msg)` is embedded as
`Except.error (PyErr.valueError msg)`, and so on. -/
inductive PyErr where
  | typeError (msg : String)
  | valueError (msg : String)
  | keyError (msg : String)
  | runtimeError (msg : String)
deriving DecidableEq

/-- A pandas `DataFrame` of returns: a date index of length `m`, `n`
column labels (tickers), and an `m × n` matrix of return values
(rows = time periods, columns = assets).  Values are exact rationals. -/
structure DataFrame (m n : ℕ) where
  index : Fin m → ℕ
  columns : Fin n → String
  data : Matrix (Fin m) (Fin n) ℚ

/-- A pandas `Series` with `k` entries: an index of labels of type `ι`
and rational values. -/
structure PSeries (k : ℕ) (ι : Type) where
  index : Fin k → ι
  values : Fin k → ℚ

/-- Column mean of a return matrix (`returns_df[col].mean()`). -/
def colMean {m n : ℕ} (df : DataFrame m n) (j : Fin n) : ℚ :=
  (∑ t, df.data t j) / m

/-- `returns_df.cov()`: the pairwise sample covariance matrix of the
asset columns, with pandas' default unbiased normalization `1/(m-1)`. -/
def sampleCov {m n : ℕ} (df : DataFrame m n) : Matrix (Fin n) (Fin n) ℚ :=
  Matrix.of fun i j =>
    (∑ t, (df.data t i - colMean df i) * (df.data t j - colMean df j)) / ((m : ℚ) - 1)

/-- `np.linalg.inv`, in exact arithmetic: the inverse of a square
rational matrix, computed as `det⁻¹ • adjugate`.  Agrees with Mathlib's
`A⁻¹` whenever `A.det ≠ 0` (`matInv_eq_inv` below); `np.linalg.inv`
raises `LinAlgError` exactly in the singular case, which the caller
checks via `det = 0`. -/
def matInv {k : ℕ} (A : Matrix (Fin k) (Fin k) ℚ) : Matrix (Fin k) (Fin k) ℚ :=
  A.det⁻¹ • A.adjugate

/-- The all-ones vector `np.ones(len(cov))`. -/
def onesVec (n : ℕ) : Fin n → ℚ := fun _ => 1

/-- The weight vector computed at lines 60–61 of
`minimum_variance_portfolio.py`: `weights = inv_cov @ ones` followed by
`weights /= ones.T @ inv_cov @ ones`. -/
def mvpWeightVec {m n : ℕ} (df : DataFrame m n) : Fin n → ℚ :=
  fun i =>
    (matInv (sampleCov df) *ᵥ onesVec n) i /
      ((onesVec n ᵥ* matInv (sampleCov df)) ⬝ᵥ onesVec n)

def msgEmptyDf : String := "Input DataFrame cannot be empty."

def msgTwoAssets : String :=
  "At least two assets are required to compute the minimum variance portfolio."

def msgDim : String :=
  "Number of observations must exceed the number of assets to ensure covariance matrix invertibility."

def msgSingular : String :=
  "Covariance matrix is singular and cannot be inverted. Try removing collinear or redundant assets."

def msgMismatch : String :=
  "Mismatch in index between input data and calculated portfolio returns."

/-- `calculate_mvp_weights` (minimum_variance_portfolio.py, lines 4–66).
The `isinstance` check is enforced statically by the embedding's types,
and the NaN check can never fire since `ℚ` has no NaN; the remaining
value checks and the computation are embedded in source order.
`returns_df.empty` is true when there are no rows or no columns. -/
def calculate_mvp_weights {m n : ℕ} (df : DataFrame m n) :
    Except PyErr (PSeries n String) :=
  if m = 0 ∨ n = 0 then .error (.valueError msgEmptyDf)
  else if n < 2 then .error (.valueError msgTwoAssets)
  else if m ≤ n then .error (.valueError msgDim)
  else if (sampleCov df).det = 0 then .error (.valueError msgSingular)
  else .ok ⟨df.columns, mvpWeightVec df⟩

/-- `calculate_mvp_portfolio` (minimum_variance_portfolio.py, lines
68–110).  `returns_df @ mvp_weights` aligns the weight series with the
matrix columns by label; the weights produced by
`calculate_mvp_weights` are keyed by exactly `df.columns` in order, so
the label alignment is positional here and the product is the row-wise
dot product, indexed by `df.index`.  The defensive index-equality check
of lines 107–108 is embedded literally. -/
def calculate_mvp_portfolio {m n : ℕ} (df : DataFrame m n) :
    Except PyErr (PSeries m ℕ) :=
  if m = 0 ∨ n = 0 then .error (.valueError msgEmptyDf)
  else
    match calculate_mvp_weights df with
    | .error e => .error e
    | .ok w =>
      let pr : PSeries m ℕ := ⟨df.index, fun t => ∑ j, df.data t j * w.values j⟩
      if df.index = pr.index then .ok pr
      else .error (.valueError msgMismatch)

/-- The column-centered data matrix `X - mean` underlying the sample
covariance. -/
def centered {m n : ℕ} (df : DataFrame m n) : Matrix (Fin m) (Fin n) ℚ :=
  Matrix.of fun t j => df.data t j - colMean df j

lemma sampleCov_eq_centered {m n : ℕ} (df : DataFrame m n) :
    sampleCov df = ((m : ℚ) - 1)⁻¹ • ((centered df)ᵀ * centered df) := by
  ext i j
  simp [sampleCov, centered, Matrix.mul_apply, Matrix.transpose_apply,
    Matrix.smul_apply, div_eq_inv_mul, smul_eq_mul]

lemma matInv_eq_inv {k : ℕ} (A : Matrix (Fin k) (Fin k) ℚ) :
    matInv A = A⁻¹ := by
  rw [matInv, Matrix.inv_def, Ring.inverse_eq_inv]

lemma cov_mul_matInv {m n : ℕ} (df : DataFrame m n)
    (hdet : (sampleCov df).det ≠ 0) :
    sampleCov df * matInv (sampleCov df) = 1 := by
  rw [matInv, Matrix.mul_smul, Matrix.mul_adjugate, smul_smul,
    inv_mul_cancel₀ hdet, one_smul]

lemma cov_mulVec_matInv_ones {m n : ℕ} (df : DataFrame m n)
    (hdet : (sampleCov df).det ≠ 0) :
    sampleCov df *ᵥ (matInv (sampleCov df) *ᵥ onesVec n) = onesVec n := by
  rw [Matrix.mulVec_mulVec, cov_mul_matInv df hdet, Matrix.one_mulVec]

lemma dot_sampleCov {m n : ℕ} (df : DataFrame m n) (v : Fin n → ℚ) :
    v ⬝ᵥ (sampleCov df *ᵥ v) =
      ((m : ℚ) - 1)⁻¹ * ((centered df *ᵥ v) ⬝ᵥ (centered df *ᵥ v)) := by
  rw [sampleCov_eq_centered, Matrix.smul_mulVec_assoc, dotProduct_smul,
    smul_eq_mul]
  congr 1
  rw [← Matrix.mulVec_mulVec, Matrix.dotProduct_mulVec, Matrix.vecMul_transpose]

/-- The scalar `ones.T @ inv_cov @ ones` of line 61, rewritten as the
symmetric form `1ᵗ·(Σ⁻¹·1)`. -/
lemma denom_eq_dot {m n : ℕ} (df : DataFrame m n) :
    (onesVec n ᵥ* matInv (sampleCov df)) ⬝ᵥ onesVec n =
      onesVec n ⬝ᵥ (matInv (sampleCov df) *ᵥ onesVec n) := by
  rw [Matrix.dotProduct_mulVec]

/-- The normalizing denominator `1ᵗΣ⁻¹1` is nonzero whenever the
preconditions hold and the covariance matrix is invertible: the sample
covariance is positive semidefinite (it factors through the centered
data matrix), so `1ᵗΣ⁻¹1 = vᵗΣv` with `v = Σ⁻¹1` can vanish only if
`Σv = 0`, contradicting `Σv = 1 ≠ 0`. -/
lemma denom_ne_zero {m n : ℕ} (df : DataFrame m n)
    (hn : 2 ≤ n) (hmn : n < m) (hdet : (sampleCov df).det ≠ 0) :
    onesVec n ⬝ᵥ (matInv (sampleCov df) *ᵥ onesVec n) ≠ 0 := by
  intro h0
  set v := matInv (sampleCov df) *ᵥ onesVec n with hv
  have hSv : sampleCov df *ᵥ v = onesVec n := cov_mulVec_matInv_ones df hdet
  rw [← hSv, dotProduct_comm, dot_sampleCov] at h0
  have hm3 : 3 ≤ m := by omega
  have hc : ((m : ℚ) - 1) ≠ 0 := by
    have : (3 : ℚ) ≤ (m : ℚ) := by exact_mod_cast hm3
    intro h; linarith
  have hu : (centered df *ᵥ v) ⬝ᵥ (centered df *ᵥ v) = 0 := by
    rcases mul_eq_zero.mp h0 with h | h
    · exact absurd h (inv_ne_zero hc)
    · exact h
  have huz : centered df *ᵥ v = 0 := by
    funext t
    have hnn : ∀ t ∈ (univ : Finset (Fin m)),
        0 ≤ (centered df *ᵥ v) t * (centered df *ᵥ v) t :=
      fun t _ => mul_self_nonneg _
    have := (Finset.sum_eq_zero_iff_of_nonneg hnn).mp hu t (mem_univ t)
    have := mul_self_eq_zero.mp this
    simpa using this
  have hSv0 : sampleCov df *ᵥ v = 0 := by
    rw [sampleCov_eq_centered, Matrix.smul_mulVec_assoc, ← Matrix.mulVec_mulVec,
      huz, Matrix.mulVec_zero, smul_zero]
  rw [hSv] at hSv0
  have h1 : onesVec n ⟨0, by omega⟩ = 0 := congrFun hSv0 ⟨0, by omega⟩
  simp [onesVec] at h1

/-- Under the preconditions (with an invertible covariance matrix) the
optimizer takes its success branch and returns the computed weights
keyed by the input's columns. -/
lemma mvp_weights_ok {m n : ℕ} (df : DataFrame m n)
    (hn : 2 ≤ n) (hmn : n < m) (hdet : (sampleCov df).det ≠ 0) :
    calculate_mvp_weights df = .ok ⟨df.columns, mvpWeightVec df⟩ := by
  unfold calculate_mvp_weights
  rw [if_neg (by omega), if_neg (by omega), if_neg (by omega), if_neg hdet]

lemma mvpWeightVec_sum {m n : ℕ} (df : DataFrame m n)
    (hn : 2 ≤ n) (hmn : n < m) (hdet : (sampleCov df).det ≠ 0) :
    ∑ i, mvpWeightVec df i = 1 := by
  unfold mvpWeightVec
  rw [← Finset.sum_div, denom_eq_dot]
  have hnum : ∑ i, (matInv (sampleCov df) *ᵥ onesVec n) i =
      onesVec n ⬝ᵥ (matInv (sampleCov df) *ᵥ onesVec n) := by
    simp [dotProduct, onesVec]
  rw [hnum, div_self (denom_ne_zero df hn hmn hdet)]

/-- Under the preconditions, a singular covariance matrix sends the
optimizer into the `np.linalg.LinAlgError` handler of lines 55–58,
which re-raises a `ValueError` with the collinearity advice. -/
lemma mvp_weights_singular {m n : ℕ} (df : DataFrame m n)
    (hn : 2 ≤ n) (hmn : n < m) (hdet : (sampleCov df).det = 0) :
    calculate_mvp_weights df = .error (.valueError msgSingular) := by
  unfold calculate_mvp_weights
  rw [if_neg (by omega), if_neg (by omega), if_neg (by omega), if_pos hdet]

/-- Concrete valid 3×2 return matrix with invertible covariance. -/
def dfW : DataFrame 3 2 := ⟨![0, 1, 2], !["AAPL", "MSFT"], !![1, 0; 0, 1; 0, 0]⟩

/-- Concrete 3×2 return matrix with a duplicated column (singular
covariance). -/
def dfDup : DataFrame 3 2 := ⟨![0, 1, 2], !["AAPL", "AAPL2"], !![1, 1; 2, 2; 3, 3]⟩

/-- Concrete single-asset return matrix (fails the ≥2-assets check). -/
def dfOneCol : DataFrame 3 1 := ⟨![0, 1, 2], !["AAPL"], !![1; 2; 3]⟩

/-- Concrete 2×2 return matrix: as many rows as columns. -/
def dfSquare : DataFrame 2 2 := ⟨![0, 1], !["AAPL", "MSFT"], !![1, 0; 0, 1]⟩

lemma dfW_det_ne : (sampleCov dfW).det ≠ 0 := by
  rw [Matrix.det_fin_two]
  norm_num [sampleCov, colMean, dfW, Fin.sum_univ_three]

lemma dfDup_det_zero : (sampleCov dfDup).det = 0 := by
  rw [Matrix.det_fin_two]
  norm_num [sampleCov, colMean, dfDup, Fin.sum_univ_three]

/-- C1: For every return matrix satisfying the Optimizer preconditions
(non-empty, at least 2 asset columns, strictly more rows than columns;
missing values are unrepresentable in the exact embedding) whose sample
covariance matrix is invertible, `calculate_mvp_weights` returns exactly
`w = Σ⁻¹·1 / (1ᵗ·Σ⁻¹·1)` — stated with Mathlib's matrix inverse for Σ⁻¹ —
and the returned weight vector is keyed by exactly the matrix's column
identities in their original order. -/
theorem mvp_weights_closed_form {m n : ℕ} (df : DataFrame m n)
    (hn : 2 ≤ n) (hmn : n < m) (hdet : (sampleCov df).det ≠ 0) :
    calculate_mvp_weights df =
      .ok ⟨df.columns, fun i =>
        ((sampleCov df)⁻¹ *ᵥ onesVec n) i /
          (onesVec n ⬝ᵥ ((sampleCov df)⁻¹ *ᵥ onesVec n))⟩ := by
  rw [mvp_weights_ok df hn hmn hdet]
  have h : mvpWeightVec df = fun i =>
      ((sampleCov df)⁻¹ *ᵥ onesVec n) i /
        (onesVec n ⬝ᵥ ((sampleCov df)⁻¹ *ᵥ onesVec n)) := by
    funext i
    simp only [mvpWeightVec]
    rw [denom_eq_dot, matInv_eq_inv]
  rw [h]

theorem mvp_weights_closed_form_witness :
    2 ≤ 2 ∧ 2 < 3 ∧ (sampleCov dfW).det ≠ 0 ∧
    calculate_mvp_weights dfW =
      .ok ⟨dfW.columns, fun i =>
        ((sampleCov dfW)⁻¹ *ᵥ onesVec 2) i /
          (onesVec 2 ⬝ᵥ ((sampleCov dfW)⁻¹ *ᵥ onesVec 2))⟩ :=
  ⟨by norm_num, by norm_num, dfW_det_ne,
    mvp_weights_closed_form dfW (by norm_num) (by norm_num) dfW_det_ne⟩

/-- C2: For every return matrix satisfying the Optimizer preconditions
whose covariance matrix is invertible, the returned weights sum to
exactly 1 in the exact-arithmetic embedding (hence within the 1e-5
tolerance the spec allows for floating point). -/
theorem mvp_weights_sum_one {m n : ℕ} (df : DataFrame m n)
    (hn : 2 ≤ n) (hmn : n < m) (hdet : (sampleCov df).det ≠ 0) :
    ∃ s : PSeries n String, calculate_mvp_weights df = .ok s ∧
      (∑ i, s.values i) = 1 ∧ |(∑ i, s.values i) - 1| ≤ 1 / 100000 := by
  refine ⟨⟨df.columns, mvpWeightVec df⟩, mvp_weights_ok df hn hmn hdet, ?_, ?_⟩
  · exact mvpWeightVec_sum df hn hmn hdet
  · show |(∑ i, mvpWeightVec df i) - 1| ≤ 1 / 100000
    rw [mvpWeightVec_sum df hn hmn hdet]
    norm_num

theorem mvp_weights_sum_one_witness :
    2 ≤ 2 ∧ 2 < 3 ∧ (sampleCov dfW).det ≠ 0 ∧
    (∃ s : PSeries 2 String, calculate_mvp_weights dfW = .ok s ∧
      (∑ i, s.values i) = 1 ∧ |(∑ i, s.values i) - 1| ≤ 1 / 100000) :=
  ⟨by norm_num, by norm_num, dfW_det_ne,
    mvp_weights_sum_one dfW (by norm_num) (by norm_num) dfW_det_ne⟩

/-- C3: For every valid return matrix (preconditions plus invertible
covariance), the composed portfolio return series has a date index
identical in membership and order to the input matrix's index; the
defensive internal-consistency check of lines 107–108 passes and no
error is returned. -/
theorem mvp_portfolio_index_preserved {m n : ℕ} (df : DataFrame m n)
    (hn : 2 ≤ n) (hmn : n < m) (hdet : (sampleCov df).det ≠ 0) :
    ∃ pr : PSeries m ℕ, calculate_mvp_portfolio df = .ok pr ∧
      pr.index = df.index := by
  refine ⟨⟨df.index, fun t => ∑ j, df.data t j * mvpWeightVec df j⟩, ?_, rfl⟩
  unfold calculate_mvp_portfolio
  rw [if_neg (by omega), mvp_weights_ok df hn hmn hdet]
  dsimp only
  rw [if_pos rfl]

theorem mvp_portfolio_index_preserved_witness :
    2 ≤ 2 ∧ 2 < 3 ∧ (sampleCov dfW).det ≠ 0 ∧
    (∃ pr : PSeries 3 ℕ, calculate_mvp_portfolio dfW = .ok pr ∧
      pr.index = dfW.index) :=
  ⟨by norm_num, by norm_num, dfW_det_ne,
    mvp_portfolio_index_preserved dfW (by norm_num) (by norm_num) dfW_det_ne⟩

/-- C4 counterexample: on a precondition-satisfying matrix with a
duplicated column, the singular-covariance failure is raised as
`PyErr.valueError` — the very same error kind the optimizer uses for
its plain validation failures (second conjunct) — so it is not "an
error of a kind distinct from plain validation errors". -/
theorem singular_cov_same_kind_cx :
    calculate_mvp_weights dfDup = .error (.valueError msgSingular) ∧
    calculate_mvp_weights dfOneCol = .error (.valueError msgTwoAssets) := by
  constructor
  · exact mvp_weights_singular dfDup (by norm_num) (by norm_num) dfDup_det_zero
  · rfl

/-- C4 (amended): when the preconditions hold but the sample covariance
matrix is singular, `calculate_mvp_weights` fails with a `ValueError` —
the same kind as its validation errors — whose message names the
singular covariance matrix as the cause and advises removing collinear
assets; it never falls back to a pseudo-inverse (no `.ok` result). -/
theorem singular_cov_value_error {m n : ℕ} (df : DataFrame m n)
    (hn : 2 ≤ n) (hmn : n < m) (hdet : (sampleCov df).det = 0) :
    calculate_mvp_weights df = .error (.valueError msgSingular) :=
  mvp_weights_singular df hn hmn hdet

theorem singular_cov_value_error_witness :
    2 ≤ 2 ∧ 2 < 3 ∧ (sampleCov dfDup).det = 0 ∧
    calculate_mvp_weights dfDup = .error (.valueError msgSingular) :=
  ⟨by norm_num, by norm_num, dfDup_det_zero,
    singular_cov_value_error dfDup (by norm_num) (by norm_num) dfDup_det_zero⟩

/-- C7: a matrix with exactly `columns + 1` observation rows passes the
dimension precondition (it reaches the covariance computation, so the
result is either weights or the numerical singular-matrix error), while
a matrix with exactly as many rows as columns fails with the validation
error naming the rows-must-exceed-columns constraint. -/
theorem mvp_dimension_boundary {m n : ℕ} (df : DataFrame m n) (hn : 2 ≤ n) :
    (m = n + 1 →
      (∃ s, calculate_mvp_weights df = .ok s) ∨
        calculate_mvp_weights df = .error (.valueError msgSingular)) ∧
    (m = n → calculate_mvp_weights df = .error (.valueError msgDim)) := by
  constructor
  · intro hm
    unfold calculate_mvp_weights
    rw [if_neg (by omega), if_neg (by omega), if_neg (by omega)]
    by_cases h : (sampleCov df).det = 0
    · right; rw [if_pos h]
    · left; rw [if_neg h]; exact ⟨_, rfl⟩
  · intro hm
    unfold calculate_mvp_weights
    rw [if_neg (by omega), if_neg (by omega), if_pos (by omega)]

theorem mvp_dimension_boundary_witness :
    2 ≤ 2 ∧
    ((∃ s, calculate_mvp_weights dfW = .ok s) ∨
      calculate_mvp_weights dfW = .error (.valueError msgSingular)) ∧
    calculate_mvp_weights dfSquare = .error (.valueError msgDim) :=
  ⟨by norm_num, (mvp_dimension_boundary dfW (by norm_num)).1 rfl,
    (mvp_dimension_boundary dfSquare (by norm_num)).2 rfl⟩

/-- A pandas `Series` of real-valued returns with a date index, as
consumed by `portfolio_statistics.py`. -/
structure RSeries (k : ℕ) where
  dates : Fin k → ℕ
  values : Fin k → ℝ

/-- An IEEE floating-point value as relevant to the statistics engine:
an ordinary (finite) real number or the NaN sentinel.  Infinities are
unreachable in the statistics code on finite inputs, so they are not
modelled. -/
inductive FloatVal where
  | num (x : ℝ)
  | nan

/-- The module-level dict `valid_interval_factors = {"daily": 252,
"monthly": 12, "yearly": 1}` (portfolio_statistics.py line 7), as a
lookup function. -/
def valid_interval_factors (s : String) : Option ℕ :=
  if s = "daily" then some 252
  else if s = "monthly" then some 12
  else if s = "yearly" then some 1
  else none

/-- Python `str.lower()`, adequate for the ASCII interval tags. -/
def pyLower (s : String) : String := ⟨s.data.map Char.toLower⟩

/-- `portfolio_returns.mean()`. -/
noncomputable def seriesMean {k : ℕ} (s : RSeries k) : ℝ :=
  (∑ i, s.values i) / k

/-- `portfolio_returns.std()`: pandas sample standard deviation with
`ddof=1`.  For at most one observation the `0/0` division yields NaN,
exactly as pandas does. -/
noncomputable def seriesStd {k : ℕ} (s : RSeries k) : FloatVal :=
  if k ≤ 1 then .nan
  else .num (Real.sqrt ((∑ i, (s.values i - seriesMean s) ^ 2) / ((k : ℝ) - 1)))

/-- Multiplication of a float by a finite real scale factor
(`std_dev * np.sqrt(interval_factor)`): NaN propagates. -/
noncomputable def fvScale (v : FloatVal) (c : ℝ) : FloatVal :=
  match v with
  | .nan => .nan
  | .num x => .num (x * c)

open Classical in
/-- Lines 132–136: `sharpe_ratio = np.nan if annualized_volatility == 0
else annualized_return / annualized_volatility`.  An IEEE NaN compares
unequal to `0`, and dividing a finite number by NaN yields NaN. -/
noncomputable def sharpeOf (annRet : ℝ) (annVol : FloatVal) : FloatVal :=
  match annVol with
  | .nan => .nan
  | .num v => if v = 0 then .nan else .num (annRet / v)

/-- `(1 + portfolio_returns).cumprod()` at position `i`: the running
product of `1 + r` over the series up to and including `i`. -/
noncomputable def cumProd {k : ℕ} (s : RSeries k) (i : Fin k) : ℝ :=
  ∏ j ∈ Finset.univ.filter (fun j => j ≤ i), (1 + s.values j)

/-- `cumulative_return.cummax()` at position `i`: the running maximum
of the cumulative product. -/
noncomputable def rollMax {k : ℕ} (s : RSeries k) (i : Fin k) : ℝ :=
  (Finset.univ.filter (fun j => j ≤ i)).sup' ⟨i, by simp⟩ (fun j => cumProd s j)

/-- The seven-field statistics dictionary returned by
`calculate_portfolio_statistics`. -/
structure StatsRecord where
  mean_return : ℝ
  annualized_return : ℝ
  std_dev : FloatVal
  annualized_volatility : FloatVal
  sharpe_ratio : FloatVal
  cumulative_return : ℝ
  max_drawdown : ℝ

def msgEmptySeries : String := "Portfolio return series cannot be empty."

def msgBadInterval : String :=
  "Invalid interval factor. Must be one of: daily, monthly, yearly."

def msgEmptyCompare : String := "Return series cannot be empty."

def msgNoOverlap : String :=
  "Portfolio and market return series must share overlapping dates."

def msgBadIntervalCompare : String :=
  "Invalid interval. Must be 'daily', 'monthly', or 'yearly'."

/-- `calculate_portfolio_statistics` (portfolio_statistics.py, lines
73–157).  Type checks are static; the finiteness check cannot fire
since `RSeries` holds finite reals.  `interval.lower()` is applied and
looked up in `valid_interval_factors`; the seven statistics are then
computed as in lines 123–157. -/
noncomputable def calculate_portfolio_statistics {k : ℕ} (s : RSeries k)
    (interval : String) : Except PyErr StatsRecord :=
  if hk : k = 0 then .error (.valueError msgEmptySeries)
  else
    match valid_interval_factors (pyLower interval) with
    | none => .error (.valueError msgBadInterval)
    | some f =>
      let mean : ℝ := seriesMean s
      let annRet : ℝ := mean * f
      let std := seriesStd s
      let annVol := fvScale std (Real.sqrt f)
      .ok {
        mean_return := mean
        annualized_return := annRet
        std_dev := std
        annualized_volatility := annVol
        sharpe_ratio := sharpeOf annRet annVol
        cumulative_return := cumProd s ⟨k - 1, by omega⟩ - 1
        max_drawdown := Finset.univ.inf' ⟨⟨0, by omega⟩, Finset.mem_univ _⟩
          (fun i => cumProd s i / rollMax s i - 1) }

open Classical in
/-- `compare_portfolio_with_market_benchmark` (portfolio_statistics.py,
lines 10–70).  The value checks of lines 50–62 are embedded in source
order (the finiteness checks cannot fire on real-valued series); the
function then computes the two statistics records on the two full,
unmodified input series — there is no alignment to the common dates —
and hands them to the printer.  The observable result is the pair of
records. -/
noncomputable def compare_portfolio_with_market_benchmark {k l : ℕ}
    (p : RSeries k) (q : RSeries l) (interval : String) :
    Except PyErr (StatsRecord × StatsRecord) :=
  if k = 0 ∨ l = 0 then .error (.valueError msgEmptyCompare)
  else if ¬ ∃ i j, p.dates i = q.dates j then .error (.valueError msgNoOverlap)
  else
    match valid_interval_factors (pyLower interval) with
    | none => .error (.valueError msgBadIntervalCompare)
    | some _ =>
      match calculate_portfolio_statistics p (pyLower interval),
            calculate_portfolio_statistics q (pyLower interval) with
      | .error e, _ => .error e
      | _, .error e => .error e
      | .ok a, .ok b => .ok (a, b)

lemma valid_interval_pyLower {s : String} {f : ℕ}
    (h : valid_interval_factors s = some f) :
    valid_interval_factors (pyLower s) = some f := by
  unfold valid_interval_factors at h
  split_ifs at h with h1 h2 h3
  · subst h1
    exact (by decide : valid_interval_factors (pyLower "daily") = some 252).trans h
  · subst h2
    exact (by decide : valid_interval_factors (pyLower "monthly") = some 12).trans h
  · subst h3
    exact (by decide : valid_interval_factors (pyLower "yearly") = some 1).trans h

/-- A non-empty series with a recognized interval always produces a
statistics record. -/
lemma calculate_portfolio_statistics_ok {k : ℕ} (s : RSeries k)
    (interval : String) (hk : k ≠ 0) {f : ℕ}
    (hf : valid_interval_factors (pyLower interval) = some f) :
    ∃ r, calculate_portfolio_statistics s interval = .ok r := by
  unfold calculate_portfolio_statistics
  rw [dif_neg hk, hf]
  exact ⟨_, rfl⟩

/-- The constant-zero return series of length `k` (with dates
`0, …, k-1`). -/
def zeroSeries (k : ℕ) : RSeries k := ⟨fun i => i.val, fun _ => 0⟩

lemma seriesMean_zero (k : ℕ) : seriesMean (zeroSeries k) = 0 := by
  simp [seriesMean, zeroSeries]

lemma seriesStd_zero {k : ℕ} (hk : 2 ≤ k) :
    seriesStd (zeroSeries k) = .num 0 := by
  unfold seriesStd
  rw [if_neg (by omega), seriesMean_zero]
  simp [zeroSeries]

lemma cumProd_zero {k : ℕ} (i : Fin k) : cumProd (zeroSeries k) i = 1 := by
  simp [cumProd, zeroSeries]

lemma rollMax_zero {k : ℕ} (i : Fin k) : rollMax (zeroSeries k) i = 1 := by
  simp [rollMax, cumProd_zero, Finset.sup'_const]

/-- C5 counterexample: the claim ranges over "any length ≥ 1", but on
the length-1 constant-zero series pandas' `std()` (ddof = 1) divides by
zero and returns NaN, so `std_dev` and `annualized_volatility` are NaN
rather than 0 (the Sharpe ratio is still NaN, via `0 / NaN`).  The
record predicted by the claim (all zeros with NaN Sharpe) is therefore
not returned. -/
lemma stats_len_one_eval :
    calculate_portfolio_statistics (zeroSeries 1) "monthly" =
      .ok ⟨0, 0, .nan, .nan, .nan, 0, 0⟩ := by
  unfold calculate_portfolio_statistics
  rw [dif_neg (by omega),
    (by decide : valid_interval_factors (pyLower "monthly") = some 12)]
  simp only [seriesMean_zero, seriesStd, fvScale, sharpeOf, cumProd_zero,
    rollMax_zero]
  norm_num [Finset.inf'_const]

theorem stats_zero_series_len_one_cx :
    calculate_portfolio_statistics (zeroSeries 1) "monthly" =
      .ok ⟨0, 0, .nan, .nan, .nan, 0, 0⟩ ∧
    calculate_portfolio_statistics (zeroSeries 1) "monthly" ≠
      .ok ⟨0, 0, .num 0, .num 0, .nan, 0, 0⟩ := by
  refine ⟨stats_len_one_eval, ?_⟩
  rw [stats_len_one_eval]
  intro h
  have := (Except.ok.injEq _ _).mp h
  simp only [StatsRecord.mk.injEq] at this
  exact FloatVal.noConfusion this.2.2.1

/-- C5 (amended): `calculate_portfolio_statistics` on a constant-zero
return series of any length ≥ 2, with any recognized frequency, returns
meanReturn = annualizedReturn = stdDev = annualizedVolatility =
cumulativeReturn = maxDrawdown = 0 and a NaN Sharpe ratio.  (For a
length-1 series, stdDev and annualizedVolatility are NaN rather than 0
— see the counterexample.) -/
theorem stats_zero_series {k : ℕ} (hk : 2 ≤ k) (interval : String) (f : ℕ)
    (hf : valid_interval_factors (pyLower interval) = some f) :
    calculate_portfolio_statistics (zeroSeries k) interval =
      .ok ⟨0, 0, .num 0, .num 0, .nan, 0, 0⟩ := by
  unfold calculate_portfolio_statistics
  rw [dif_neg (by omega), hf]
  simp only [seriesMean_zero, seriesStd_zero hk, fvScale, sharpeOf,
    cumProd_zero, rollMax_zero]
  norm_num [Finset.inf'_const]

theorem stats_zero_series_witness :
    2 ≤ 3 ∧ valid_interval_factors (pyLower "monthly") = some 12 ∧
    calculate_portfolio_statistics (zeroSeries 3) "monthly" =
      .ok ⟨0, 0, .num 0, .num 0, .nan, 0, 0⟩ :=
  ⟨by norm_num, by decide, stats_zero_series (by norm_num) "monthly" 12 (by decide)⟩

/-- C6 counterexample: the length-1 constant-zero series passes every
Statistics Engine precondition, yet its Sharpe ratio is NaN while its
annualized volatility is NaN — not exactly zero — because pandas'
`std()` of one observation is NaN, `NaN == 0` is false, and `0 / NaN`
is NaN.  This violates the claimed "NaN iff volatility is exactly
zero". -/
theorem sharpe_nan_iff_zero_vol_cx :
    calculate_portfolio_statistics (zeroSeries 1) "monthly" =
      .ok ⟨0, 0, .nan, .nan, .nan, 0, 0⟩ ∧
    (StatsRecord.mk 0 0 .nan .nan .nan 0 0).sharpe_ratio = .nan ∧
    (StatsRecord.mk 0 0 .nan .nan .nan 0 0).annualized_volatility ≠ .num 0 :=
  ⟨stats_len_one_eval, rfl, fun h => FloatVal.noConfusion h⟩

/-- C6 (amended): for every return series of length ≥ 2 and every
recognized frequency, the computed Sharpe ratio is the NaN sentinel —
with no error raised — if and only if the annualized volatility is
exactly zero; when the annualized volatility is a nonzero number, the
Sharpe ratio equals annualizedReturn / annualizedVolatility.  (For a
length-1 series the annualized volatility is itself NaN and the Sharpe
ratio is NaN — see the counterexample.) -/
theorem sharpe_nan_iff_zero_vol {k : ℕ} (s : RSeries k) (hk : 2 ≤ k)
    (interval : String) (f : ℕ)
    (hf : valid_interval_factors (pyLower interval) = some f) :
    ∃ r, calculate_portfolio_statistics s interval = .ok r ∧
      (r.sharpe_ratio = .nan ↔ r.annualized_volatility = .num 0) ∧
      (∀ v : ℝ, r.annualized_volatility = .num v → v ≠ 0 →
        r.sharpe_ratio = .num (r.annualized_return / v)) := by
  unfold calculate_portfolio_statistics
  rw [dif_neg (by omega), hf]
  have hstd : seriesStd s =
      .num (Real.sqrt ((∑ i, (s.values i - seriesMean s) ^ 2) / ((k : ℝ) - 1))) := by
    unfold seriesStd
    rw [if_neg (by omega : ¬ k ≤ 1)]
  rw [hstd]
  refine ⟨_, rfl, ?_, ?_⟩
  · dsimp only [fvScale, sharpeOf]
    by_cases hx : Real.sqrt ((∑ i, (s.values i - seriesMean s) ^ 2) / ((k : ℝ) - 1)) *
        Real.sqrt (f : ℝ) = 0
    · rw [if_pos hx, hx]
      simp
    · rw [if_neg hx]
      simp [hx]
  · intro v hv hv0
    dsimp only [fvScale, sharpeOf] at hv ⊢
    have hxv : Real.sqrt ((∑ i, (s.values i - seriesMean s) ^ 2) / ((k : ℝ) - 1)) *
        Real.sqrt (f : ℝ) = v := (FloatVal.num.injEq _ _).mp hv
    rw [hxv, if_neg hv0]

def sW : RSeries 2 := ⟨![100, 101], ![0, 1]⟩

theorem sharpe_nan_iff_zero_vol_witness :
    2 ≤ 2 ∧ valid_interval_factors (pyLower "monthly") = some 12 ∧
    (∃ r, calculate_portfolio_statistics sW "monthly" = .ok r ∧
      (r.sharpe_ratio = .nan ↔ r.annualized_volatility = .num 0) ∧
      (∀ v : ℝ, r.annualized_volatility = .num v → v ≠ 0 →
        r.sharpe_ratio = .num (r.annualized_return / v))) :=
  ⟨by norm_num, by decide,
    sharpe_nan_iff_zero_vol sW (by norm_num) "monthly" 12 (by decide)⟩

/-- C10: the side-by-side comparison entry point requires a non-empty
date-index intersection but never aligns the two series to it: for
every pair of valid series sharing at least one date and a recognized
interval, the two returned Statistics Records are exactly
`calculate_portfolio_statistics` applied to each unmodified full
series. -/
theorem compare_full_series {k l : ℕ} (p : RSeries k) (q : RSeries l)
    (interval : String) (hk : k ≠ 0) (hl : l ≠ 0)
    (hshare : ∃ i j, p.dates i = q.dates j) (f : ℕ)
    (hf : valid_interval_factors (pyLower interval) = some f) :
    ∃ sp sq, calculate_portfolio_statistics p (pyLower interval) = .ok sp ∧
      calculate_portfolio_statistics q (pyLower interval) = .ok sq ∧
      compare_portfolio_with_market_benchmark p q interval = .ok (sp, sq) := by
  obtain ⟨sp, hsp⟩ :=
    calculate_portfolio_statistics_ok p (pyLower interval) hk (valid_interval_pyLower hf)
  obtain ⟨sq, hsq⟩ :=
    calculate_portfolio_statistics_ok q (pyLower interval) hl (valid_interval_pyLower hf)
  refine ⟨sp, sq, hsp, hsq, ?_⟩
  unfold compare_portfolio_with_market_benchmark
  rw [if_neg (by omega), if_neg (not_not_intro hshare), hf, hsp, hsq]

def sBench : RSeries 3 := ⟨![101, 102, 103], ![1, 0, 0]⟩

theorem compare_full_series_witness :
    (2 : ℕ) ≠ 0 ∧ (3 : ℕ) ≠ 0 ∧ (∃ i j, sW.dates i = sBench.dates j) ∧
    valid_interval_factors (pyLower "Monthly") = some 12 ∧
    (∃ sp sq, calculate_portfolio_statistics sW (pyLower "Monthly") = .ok sp ∧
      calculate_portfolio_statistics sBench (pyLower "Monthly") = .ok sq ∧
      compare_portfolio_with_market_benchmark sW sBench "Monthly" = .ok (sp, sq)) :=
  ⟨by norm_num, by norm_num, by decide, by decide,
    compare_full_series sW sBench "Monthly" (by norm_num) (by norm_num)
      (by decide) 12 (by decide)⟩

/-- A pandas `Series` of rational-valued returns with a datetime index,
as consumed by `factor_analysis_regression`. -/
structure QSeries (k : ℕ) where
  dates : Fin k → ℕ
  values : Fin k → ℚ

/-- The combined Factor Table (§3 of the design): dates plus the five
factor columns Mom, Mkt_rf, SMB, HML, Rf.  It is produced by
`create_factor_dataset()` from two CSV files; since that construction
is file I/O, the regression embedding receives the table as an
argument (the spec's "externally supplied factor data"). -/
structure FactorTable (r : ℕ) where
  dates : Fin r → ℕ
  mom : Fin r → ℚ
  mkt_rf : Fin r → ℚ
  smb : Fin r → ℚ
  hml : Fin r → ℚ
  rf : Fin r → ℚ

/-- Label-based lookup of a factor column at a date (the row matched by
the inner join). -/
def ftLookup {r : ℕ} (F : FactorTable r) (g : Fin r → ℚ) (d : ℕ) : ℚ :=
  match (List.finRange r).find? (fun j => F.dates j == d) with
  | some j => g j
  | none => 0

/-- The two de-duplicated date indexes contain the same set of dates.
`pd.concat([p, q], axis=1)` performs an outer join, so its result
contains NaN cells exactly when the two date sets differ; the
missing-values check of line 197 therefore fails precisely when this
predicate is false. -/
def sameDateSet {k l : ℕ} (p : QSeries k) (q : QSeries l) : Prop :=
  (∀ i, ∃ j, q.dates j = p.dates i) ∧ ∀ j, ∃ i, p.dates i = q.dates j

instance sameDateSetDecidable {k l : ℕ} (p : QSeries k) (q : QSeries l) :
    Decidable (sameDateSet p q) := by
  unfold sameDateSet
  infer_instance

/-- The rows of `final_df = joined_returns.join(combined_factors_df,
how="inner")`: the positions of the return index whose date also occurs
in the factor table. -/
def commonRows {k r : ℕ} (p : QSeries k) (F : FactorTable r) : List (Fin k) :=
  (List.finRange k).filter
    (fun i => (List.finRange r).any (fun j => F.dates j == p.dates i))

/-- The data handed to `sm.OLS(y, X).fit()` at line 220: the joined
dates, the dependent variable `Portfolio_excess = 100·portfolio − Rf`,
and the four regressor columns (Mkt_rf, SMB, HML, Mom); the intercept
is added by `sm.add_constant`. -/
structure OLSData where
  dates : List ℕ
  y : List ℚ
  x : List (ℚ × ℚ × ℚ × ℚ)

def msgRegEmpty : String := "Both input series must be non-empty."

def msgRegNoOverlap : String := "The input series must have overlapping dates."

def msgRegNaN : String :=
  "Input return series contain missing values. Please clean the data first."

def msgRegTooFew : String := "Not enough overlapping data points to run regression."

/-- `factor_analysis_regression` (portfolio_analyzer.py, lines
148–220), embedded up to the point where the OLS model is fitted:
a `.ok` result means the validations all passed and the fit is invoked
on the returned data.  Type and datetime-index checks are static in the
embedding; the missing-value check on the outer-concatenated returns is
the `sameDateSet` test (see there); `create_factor_dataset()` is
replaced by the explicit `FactorTable` argument. -/
def factor_analysis_regression {k l r : ℕ} (p : QSeries k) (q : QSeries l)
    (F : FactorTable r) : Except PyErr OLSData :=
  if k = 0 ∨ l = 0 then .error (.valueError msgRegEmpty)
  else if ¬ ∃ i j, p.dates i = q.dates j then .error (.valueError msgRegNoOverlap)
  else if ¬ sameDateSet p q then .error (.valueError msgRegNaN)
  else if (commonRows p F).length < 5 then .error (.valueError msgRegTooFew)
  else .ok {
    dates := (commonRows p F).map (fun i => p.dates i)
    y := (commonRows p F).map
      (fun i => 100 * p.values i - ftLookup F F.rf (p.dates i))
    x := (commonRows p F).map (fun i =>
      (ftLookup F F.mkt_rf (p.dates i), ftLookup F F.smb (p.dates i),
        ftLookup F F.hml (p.dates i), ftLookup F F.mom (p.dates i))) }

/-- C8: for regression inputs passing the earlier precondition checks
(non-empty series, overlapping and — after the concat NaN check —
identical de-duplicated date sets), an inner join with the factor table
yielding exactly 5 rows proceeds to the OLS fit, while a join yielding
4 or fewer rows fails with the validation error, before any fit is
attempted. -/
theorem regression_overlap_boundary {k l r : ℕ} (p : QSeries k) (q : QSeries l)
    (F : FactorTable r) (hk : k ≠ 0) (hl : l ≠ 0) (hsame : sameDateSet p q)
    (hpinj : Function.Injective p.dates) (hFinj : Function.Injective F.dates) :
    ((commonRows p F).length = 5 →
      ∃ d, factor_analysis_regression p q F = .ok d) ∧
    ((commonRows p F).length ≤ 4 →
      factor_analysis_regression p q F = .error (.valueError msgRegTooFew)) := by
  have hov : ∃ i j, p.dates i = q.dates j := by
    obtain ⟨i⟩ := Fin.pos_iff_nonempty.mp (Nat.pos_of_ne_zero hk)
    obtain ⟨j, hj⟩ := hsame.1 i
    exact ⟨i, j, hj.symm⟩
  constructor
  · intro h5
    unfold factor_analysis_regression
    rw [if_neg (by omega), if_neg (not_not_intro hov),
      if_neg (not_not_intro hsame), if_neg (by omega)]
    exact ⟨_, rfl⟩
  · intro h4
    unfold factor_analysis_regression
    rw [if_neg (by omega), if_neg (not_not_intro hov),
      if_neg (not_not_intro hsame), if_pos (by omega)]

def p5 : QSeries 5 := ⟨![1, 2, 3, 4, 5], ![1, 2, 0, 1, -1]⟩

def q5 : QSeries 5 := ⟨![1, 2, 3, 4, 5], ![0, 0, 0, 0, 0]⟩

/-- Factor table overlapping `p5` on all five dates. -/
def F5 : FactorTable 6 :=
  ⟨![1, 2, 3, 4, 5, 6], fun _ => 1, fun _ => 2, fun _ => 3, fun _ => 4, fun _ => 5⟩

/-- Factor table overlapping `p5` on only four dates. -/
def F4 : FactorTable 4 :=
  ⟨![1, 2, 3, 4], fun _ => 1, fun _ => 2, fun _ => 3, fun _ => 4, fun _ => 5⟩

theorem regression_overlap_boundary_witness :
    sameDateSet p5 q5 ∧
    (commonRows p5 F5).length = 5 ∧ (commonRows p5 F4).length = 4 ∧
    (∃ d, factor_analysis_regression p5 q5 F5 = .ok d) ∧
    factor_analysis_regression p5 q5 F4 = .error (.valueError msgRegTooFew) :=
  ⟨by decide, by decide, by decide,
    (regression_overlap_boundary p5 q5 F5 (by norm_num) (by norm_num)
      (by decide) (by decide) (by decide)).1 (by decide),
    (regression_overlap_boundary p5 q5 F4 (by norm_num) (by norm_num)
      (by decide) (by decide) (by decide)).2 (by decide)⟩

/-- `interpret_exposure` (portfolio_analyzer.py, lines 321–354).  The
`isinstance(val, float)` check is static in the embedding; the
threshold chain is embedded literally. -/
def interpret_exposure (val : ℚ) : String :=
  if val > 0.6 then "Strong exposure ↑"
  else if val > 0.3 then "Mild exposure ↑"
  else if val > 0.1 then "Slight exposure ↑"
  else if val < -0.6 then "Strong exposure ↓"
  else if val < -0.3 then "Mild exposure ↓"
  else if val < -0.1 then "Slight exposure ↓"
  else "Neutral exposure"

/-- C9 counterexample: the function's strong-positive label is the
string "Strong exposure ↑", not the claimed "Strong exposure, positive
direction", so `interpretExposure(0.7)` does not return the claimed
string (the `-0.05` case does return "Neutral exposure"). -/
theorem interpret_exposure_strings_cx :
    interpret_exposure 0.7 = "Strong exposure ↑" ∧
    interpret_exposure 0.7 ≠ "Strong exposure, positive direction" ∧
    interpret_exposure (-0.05) = "Neutral exposure" := by
  refine ⟨?_, ?_, ?_⟩
  · norm_num [interpret_exposure]
  · norm_num [interpret_exposure]
    decide
  · norm_num [interpret_exposure]

/-- C9 (amended): `interpretExposure(0.7)` returns "Strong exposure ↑"
(the up-arrow marking the positive direction) and
`interpretExposure(-0.05)` returns "Neutral exposure"; in general the
label is selected by the fixed strict thresholds `>0.6` strong-up,
`>0.3` mild-up, `>0.1` slight-up, `<-0.6` strong-down, `<-0.3`
mild-down, `<-0.1` slight-down, else neutral. -/
theorem interpret_exposure_thresholds (v : ℚ) :
    (0.6 < v → interpret_exposure v = "Strong exposure ↑") ∧
    (0.3 < v ∧ v ≤ 0.6 → interpret_exposure v = "Mild exposure ↑") ∧
    (0.1 < v ∧ v ≤ 0.3 → interpret_exposure v = "Slight exposure ↑") ∧
    (v < -0.6 → interpret_exposure v = "Strong exposure ↓") ∧
    (-0.6 ≤ v ∧ v < -0.3 → interpret_exposure v = "Mild exposure ↓") ∧
    (-0.3 ≤ v ∧ v < -0.1 → interpret_exposure v = "Slight exposure ↓") ∧
    (-0.1 ≤ v ∧ v ≤ 0.1 → interpret_exposure v = "Neutral exposure") := by
  unfold interpret_exposure
  refine ⟨fun h => ?_, fun h => ?_, fun h => ?_, fun h => ?_, fun h => ?_,
    fun h => ?_, fun h => ?_⟩
  · rw [if_pos h]
  · rw [if_neg (by linarith [h.1, h.2]), if_pos h.1]
  · rw [if_neg (by linarith [h.1, h.2]), if_neg (by linarith [h.1, h.2]),
      if_pos h.1]
  · rw [if_neg (by linarith), if_neg (by linarith), if_neg (by linarith),
      if_pos h]
  · rw [if_neg (by linarith [h.1, h.2]), if_neg (by linarith [h.1, h.2]),
      if_neg (by linarith [h.1, h.2]), if_neg (by linarith [h.1, h.2]),
      if_pos h.2]
  · rw [if_neg (by linarith [h.1, h.2]), if_neg (by linarith [h.1, h.2]),
      if_neg (by linarith [h.1, h.2]), if_neg (by linarith [h.1, h.2]),
      if_neg (by linarith [h.1, h.2]), if_pos h.2]
  · rw [if_neg (by linarith [h.1, h.2]), if_neg (by linarith [h.1, h.2]),
      if_neg (by linarith [h.1, h.2]), if_neg (by linarith [h.1, h.2]),
      if_neg (by linarith [h.1, h.2]), if_neg (by linarith [h.1, h.2])]

theorem interpret_exposure_thresholds_witness :
    (0.6 : ℚ) < 0.7 ∧ interpret_exposure 0.7 = "Strong exposure ↑" ∧
    ((-0.1 : ℚ) ≤ -0.05 ∧ (-0.05 : ℚ) ≤ 0.1) ∧
    interpret_exposure (-0.05) = "Neutral exposure" :=
  ⟨by norm_num, (interpret_exposure_thresholds 0.7).1 (by norm_num),
    ⟨by norm_num, by norm_num⟩,
    (interpret_exposure_thresholds (-0.05)).2.2.2.2.2.2 ⟨by norm_num, by norm_num⟩⟩
